import Mathlib

set_option maxRecDepth 40000

/-!
Verification of the rust-biomart client library.

This file gives a shallow embedding of the two source files of the
repository (src/lib.rs and src/definitions.rs) and proves properties of
the embedded definitions.

Modelling conventions, stated once:

* The XML object model (the external xmltree crate: a mutable element
  tree, a parser and a serializer) is embedded as the inductive `XMLNode`
  together with `Element.parse` and `serializeNode`.  Attribute maps
  (HashMap in the source) are embedded as insertion-ordered association
  lists with replace-on-insert semantics, and the serializer is the
  deterministic function below; per the specification the XML library is
  an external collaborator providing a tree builder and a tree-to-text
  serializer.
* Machine integers (u8, usize) are embedded as Nat with explicit range
  checks where the source type bounds matter.
* Fallible operations return Option or Except; a Rust panic / expect is
  embedded as Option.none or as the distinct `CallOutcome.panicked`.
* The csv reader input is embedded as the list of already-split records
  (each record a list of column strings); a row whose deserialization
  into the target record fails is a `none` of the row decoder.
-/

/-- One node of the xmltree document tree (xmltree::XMLNode): an element
with a name, an attribute map and a list of children, or a text node.
The namespace and prefix fields of the source are always `None` in this
program and are omitted. -/
inductive XMLNode : Type where
  | element (name : String) (attributes : List (String × String)) (children : List XMLNode)
  | text (s : String)
deriving Repr

/-- Characters accepted in XML names and attribute names by the embedded parser. -/
def isNameChar (c : Char) : Bool :=
  c.isAlphanum || c == '_' || c == '-' || c == '.' || c == ':'

/-- XML whitespace. -/
def isWsChar (c : Char) : Bool :=
  c == ' ' || c == '\n' || c == '\t' || c == '\r'

/-- Skip to just past the next top `>` (used for `<!DOCTYPE ...>`). -/
def dropThroughGt : List Char → List Char
  | [] => []
  | '>' :: rest => rest
  | _ :: rest => dropThroughGt rest

/-- Skip to just past the next `?>` (used for the `<?xml ...?>` declaration). -/
def dropThroughPIEnd : List Char → List Char
  | [] => []
  | '?' :: '>' :: rest => rest
  | _ :: rest => dropThroughPIEnd rest

/-- Parse the attribute list of a start tag, stopping in front of `>` or `/`.
Accepts single- or double-quoted values and whitespace around `=`. -/
def parseAttrList : Nat → List Char → Option (List (String × String) × List Char)
  | 0, _ => none
  | fuel + 1, cs =>
    let cs := cs.dropWhile isWsChar
    match cs with
    | [] => none
    | c :: _ =>
      if c == '>' || c == '/' then some ([], cs)
      else
        let nm := cs.takeWhile isNameChar
        let cs1 := cs.dropWhile isNameChar
        if nm.isEmpty then none
        else
          match cs1.dropWhile isWsChar with
          | '=' :: cs3 =>
            match cs3.dropWhile isWsChar with
            | q :: cs5 =>
              if q == '\'' || q == '"' then
                let v := cs5.takeWhile (fun c => c != q)
                match cs5.dropWhile (fun c => c != q) with
                | _ :: cs6 =>
                  match parseAttrList fuel cs6 with
                  | some (attrs, rest) => some ((⟨nm⟩, ⟨v⟩) :: attrs, rest)
                  | none => none
                | [] => none
              else none
            | [] => none
          | _ => none

mutual

/-- Parse a sequence of sibling nodes until end of input or a closing tag.
Whitespace-only text is dropped (xmltree parses with trimmed whitespace). -/
def parseNodeList : Nat → List Char → Option (List XMLNode × List Char)
  | 0, _ => none
  | fuel + 1, cs =>
    let txt := cs.takeWhile (fun c => c != '<')
    let rest := cs.dropWhile (fun c => c != '<')
    let keepText : List XMLNode :=
      if txt.isEmpty || txt.all isWsChar then [] else [XMLNode.text ⟨txt⟩]
    match rest with
    | [] => some (keepText, [])
    | '<' :: '/' :: _ => some (keepText, rest)
    | '<' :: '?' :: more =>
      match parseNodeList fuel (dropThroughPIEnd more) with
      | some (nodes, r) => some (keepText ++ nodes, r)
      | none => none
    | '<' :: '!' :: more =>
      match parseNodeList fuel (dropThroughGt more) with
      | some (nodes, r) => some (keepText ++ nodes, r)
      | none => none
    | '<' :: more =>
      match parseOneElement fuel more with
      | some (el, r) =>
        match parseNodeList fuel r with
        | some (nodes, r2) => some (keepText ++ el :: nodes, r2)
        | none => none
      | none => none
    | _ :: _ => none

/-- Parse one element whose `<` has already been consumed. -/
def parseOneElement : Nat → List Char → Option (XMLNode × List Char)
  | 0, _ => none
  | fuel + 1, cs =>
    let nm := cs.takeWhile isNameChar
    let cs1 := cs.dropWhile isNameChar
    if nm.isEmpty then none
    else
      match parseAttrList (fuel + 1) cs1 with
      | none => none
      | some (attrs, cs2) =>
        match cs2 with
        | '/' :: '>' :: rest => some (XMLNode.element ⟨nm⟩ attrs [], rest)
        | '>' :: rest =>
          match parseNodeList fuel rest with
          | none => none
          | some (children, r) =>
            match r with
            | '<' :: '/' :: r2 =>
              let nm2 := r2.takeWhile isNameChar
              let r3 := (r2.dropWhile isNameChar).dropWhile isWsChar
              if nm2 == nm then
                match r3 with
                | '>' :: r4 => some (XMLNode.element ⟨nm⟩ attrs children, r4)
                | _ => none
              else none
            | _ => none
        | _ => none

end

/-- Parse a document: skip declaration/DOCTYPE and whitespace, return the
root element (models xmltree::Element::parse). -/
def Element.parse (s : String) : Option XMLNode :=
  match parseNodeList (s.length + 1) s.data with
  | some (nodes, _) =>
    nodes.find? fun n =>
      match n with
      | .element _ _ _ => true
      | .text _ => false
  | none => none

/-- Standard XML entity escaping applied by the serializer to text and
attribute values. -/
def escapeXml (s : String) : String :=
  s.data.foldl
    (fun acc c =>
      acc ++
        (if c == '&' then "&amp;"
         else if c == '<' then "&lt;"
         else if c == '>' then "&gt;"
         else if c == '"' then "&quot;"
         else if c == '\'' then "&apos;"
         else String.mk [c]))
    ""

/-- Serialize an attribute list in insertion order. -/
def serializeAttrList (attrs : List (String × String)) : String :=
  attrs.foldl (fun acc kv => acc ++ " " ++ kv.1 ++ "=\"" ++ escapeXml kv.2 ++ "\"") ""

mutual

/-- Deterministic tree-to-text serializer (models Element::write of the
external XML library; empty elements are self-closing). -/
def serializeNode : XMLNode → String
  | .text s => escapeXml s
  | .element nm attrs children =>
    match children with
    | [] => "<" ++ nm ++ serializeAttrList attrs ++ " />"
    | _ :: _ =>
      "<" ++ nm ++ serializeAttrList attrs ++ ">" ++ serializeNodeList children
        ++ "</" ++ nm ++ ">"

/-- Serialize a list of sibling nodes. -/
def serializeNodeList : List XMLNode → String
  | [] => ""
  | n :: rest => serializeNode n ++ serializeNodeList rest

end

/-- Constant request id sent with every request (const REQUEST_ID). -/
def REQUEST_ID : String := "rust-biomart"

/-- The template document text of `impl Default for Query` in src/lib.rs,
with the requestid placeholder already substituted (format!). -/
def defaultQueryXml : String :=
  "\n        <?xml version='1.0' encoding='UTF-8'?><!DOCTYPE Query>\n            <Query\n                virtualSchemaName='default'\n                uniqueRows='1'\n                count='0'\n                datasetConfigVersion='0.6'\n                header='1'\n                formatter='TSV'\n                requestid='rust-biomart'\n            >\n                <Dataset name = ''>\n                </Dataset>\n            </Query>"

/-- A built query document wrapping its XML tree (struct Query). -/
structure Query : Type where
  inner : XMLNode
deriving Repr

/-- Serialization of a query (impl ToString for Query: Element::write to a
buffer, then the buffer as a string). -/
def Query.toText (q : Query) : String :=
  "<?xml version=\"1.0\" encoding=\"utf-8\"?>" ++ serializeNode q.inner

/-- The default query document: the parsed template (impl Default for
Query).  The source unwraps the parse result; the embedding keeps the
Option so that the success of the parse is a provable statement. -/
def Query.mkDefault : Option Query :=
  (Element.parse defaultQueryXml).map Query.mk

/-- The attribute map of the Query root element of the parsed template. -/
def defaultQueryAttrs : List (String × String) :=
  [("virtualSchemaName", "default"), ("uniqueRows", "1"), ("count", "0"),
   ("datasetConfigVersion", "0.6"), ("header", "1"), ("formatter", "TSV"),
   ("requestid", "rust-biomart")]

/-- The root element of the parsed template document. -/
def defaultQueryRoot : XMLNode :=
  .element "Query" defaultQueryAttrs [.element "Dataset" [("name", "")] []]

/-- One filter entry of the builder (enum FilterOperation). -/
inductive FilterOperation : Type where
  | Match (values : List String)
  | Include
  | Exclude
deriving Repr

/-- The mutable builder state (struct QueryBuilder). -/
structure QueryBuilder : Type where
  mart : String
  dataset : String
  filters : List (String × FilterOperation)
  attributes : List String
deriving Repr

/-- impl Default for QueryBuilder. -/
def QueryBuilder.mkDefault : QueryBuilder :=
  { mart := "", dataset := "", filters := [], attributes := [] }

/-- QueryBuilder::new. -/
def QueryBuilder.new : QueryBuilder := QueryBuilder.mkDefault

/-- QueryBuilder::mart (overwrites the stored mart name). -/
def QueryBuilder.setMart (b : QueryBuilder) (mart : String) : QueryBuilder :=
  { b with mart := mart }

/-- QueryBuilder::dataset (overwrites the stored dataset name). -/
def QueryBuilder.setDataset (b : QueryBuilder) (dataset : String) : QueryBuilder :=
  { b with dataset := dataset }

/-- QueryBuilder::filter: push a Match entry. -/
def QueryBuilder.filter (b : QueryBuilder) (filter : String) (values : List String) :
    QueryBuilder :=
  { b with filters := b.filters ++ [(filter, FilterOperation.Match values)] }

/-- QueryBuilder::filter_bool: push Include when the flag is true, else Exclude. -/
def QueryBuilder.filter_bool (b : QueryBuilder) (filter : String) (incl : Bool) :
    QueryBuilder :=
  { b with
    filters :=
      b.filters ++ [(filter, if incl then FilterOperation.Include else FilterOperation.Exclude)] }

/-- QueryBuilder::attribute: push one attribute name. -/
def QueryBuilder.addAttribute (b : QueryBuilder) (name : String) : QueryBuilder :=
  { b with attributes := b.attributes ++ [name] }

/-- QueryBuilder::attributes: push each of the given attribute names via
QueryBuilder::attribute. -/
def QueryBuilder.attributesMany (b : QueryBuilder) (names : List String) : QueryBuilder :=
  names.foldl (fun b a => b.addAttribute a) b

/-- HashMap::insert on the attribute map: replace the value of an existing
key in place, otherwise append the pair. -/
def insertAttr : List (String × String) → String → String → List (String × String)
  | [], key, v => [(key, v)]
  | (k, v0) :: rest, key, v =>
    if k == key then (key, v) :: rest else (k, v0) :: insertAttr rest key v

/-- Element::get_mut_child combined with an update: rewrite the first child
element with the given name by `f`; none when no such child exists (the
source calls .expect there). -/
def updateFirstChild (children : List XMLNode) (name : String) (f : XMLNode → XMLNode) :
    Option (List XMLNode) :=
  match children with
  | [] => none
  | c :: rest =>
    match c with
    | .element nm attrs cs =>
      if nm == name then some (f (.element nm attrs cs) :: rest)
      else (updateFirstChild rest name f).map (c :: ·)
    | .text s => (updateFirstChild rest name f).map (XMLNode.text s :: ·)

/-- Apply an update to the first child of the root named "Dataset". -/
def updateDataset (root : XMLNode) (f : XMLNode → XMLNode) : Option XMLNode :=
  match root with
  | .element nm attrs children =>
    (updateFirstChild children "Dataset" f).map (XMLNode.element nm attrs)
  | .text _ => none

/-- attributes.insert("name", dataset) on an element. -/
def setNameAttr (dataset : String) : XMLNode → XMLNode
  | .element nm attrs cs => .element nm (insertAttr attrs "name" dataset) cs
  | n => n

/-- children.push(node) on an element. -/
def pushChild (node : XMLNode) : XMLNode → XMLNode
  | .element nm attrs cs => .element nm attrs (cs ++ [node])
  | n => n

/-- The Filter element pushed for one filter entry in QueryBuilder::build
(attribute pairs in the order of the hashmap! literals of the source). -/
def filterNode (entry : String × FilterOperation) : XMLNode :=
  match entry.2 with
  | .Match values =>
    .element "Filter" [("name", entry.1), ("value", String.intercalate "," values)] []
  | .Exclude => .element "Filter" [("name", entry.1), ("excluded", "1")] []
  | .Include => .element "Filter" [("name", entry.1), ("excluded", "0")] []

/-- The Attribute element pushed for one attribute name in QueryBuilder::build. -/
def attributeNode (a : String) : XMLNode :=
  .element "Attribute" [("name", a)] []

/-- QueryBuilder::build: start from the default document, set the Dataset
name attribute, then push a Filter element per recorded filter entry and
an Attribute element per recorded attribute name, re-fetching the Dataset
child each step.  Each .expect of the source is a bind on Option. -/
def QueryBuilder.build (self : QueryBuilder) : Option Query :=
  (Query.mkDefault).bind fun q =>
    (updateDataset q.inner (setNameAttr self.dataset)).bind fun root0 =>
      (self.filters.foldlM
          (fun r entry => updateDataset r (pushChild (filterNode entry))) root0).bind
        fun root1 =>
          (self.attributes.foldlM
              (fun r a => updateDataset r (pushChild (attributeNode a))) root1).map
            fun root2 => Query.mk root2

/-- Element::get_child: the first child element with the given name. -/
def getChild (root : XMLNode) (name : String) : Option XMLNode :=
  match root with
  | .element _ _ children =>
    children.find? fun c =>
      match c with
      | .element nm _ _ => nm == name
      | .text _ => false
  | .text _ => none

/-- The children list of an element node. -/
def childNodes : XMLNode → List XMLNode
  | .element _ _ cs => cs
  | .text _ => []

/-- The attribute map lookup of an element node. -/
def attrLookup (n : XMLNode) (key : String) : Option String :=
  match n with
  | .element _ attrs _ => attrs.lookup key
  | .text _ => none

/-- The children of the Dataset element of a built document. -/
def builtDatasetChildren (b : QueryBuilder) : Option (List XMLNode) :=
  b.build.bind fun q => (getChild q.inner "Dataset").map childNodes

/-- One call to the builder, for statements quantifying over call
sequences that mix the four append operations. -/
inductive BuilderCall : Type where
  | filterCall (name : String) (values : List String)
  | filterBoolCall (name : String) (incl : Bool)
  | attributeCall (name : String)
  | attributesCall (names : List String)
deriving Repr

/-- Apply one builder call. -/
def applyCall (b : QueryBuilder) : BuilderCall → QueryBuilder
  | .filterCall n vs => b.filter n vs
  | .filterBoolCall n i => b.filter_bool n i
  | .attributeCall a => b.addAttribute a
  | .attributesCall as => b.attributesMany as

/-- Apply a sequence of builder calls in order. -/
def applyCalls (b : QueryBuilder) (calls : List BuilderCall) : QueryBuilder :=
  calls.foldl applyCall b

/-- The document child elements one builder call contributes. -/
def callNodes : BuilderCall → List XMLNode
  | .filterCall n vs => [filterNode (n, FilterOperation.Match vs)]
  | .filterBoolCall n i =>
    [filterNode (n, if i then FilterOperation.Include else FilterOperation.Exclude)]
  | .attributeCall a => [attributeNode a]
  | .attributesCall as => as.map attributeNode

/-- The Dataset children the claim under test expects: the contributed
elements in global call order. -/
def claimOrderChildren (calls : List BuilderCall) : List XMLNode :=
  (calls.map callNodes).flatten

/-- The filter entries a call sequence records, in call order. -/
def collectFilterEntries : List BuilderCall → List (String × FilterOperation)
  | [] => []
  | .filterCall n vs :: cs => (n, FilterOperation.Match vs) :: collectFilterEntries cs
  | .filterBoolCall n i :: cs =>
    (n, if i then FilterOperation.Include else FilterOperation.Exclude) ::
      collectFilterEntries cs
  | .attributeCall _ :: cs => collectFilterEntries cs
  | .attributesCall _ :: cs => collectFilterEntries cs

/-- The attribute names a call sequence records, in call order. -/
def collectAttrNames : List BuilderCall → List String
  | [] => []
  | .filterCall _ _ :: cs => collectAttrNames cs
  | .filterBoolCall _ _ :: cs => collectAttrNames cs
  | .attributeCall a :: cs => a :: collectAttrNames cs
  | .attributesCall as :: cs => as ++ collectAttrNames cs

/-- The tree QueryBuilder::build actually produces (proved below). -/
def builtRoot (b : QueryBuilder) : XMLNode :=
  .element "Query" defaultQueryAttrs
    [.element "Dataset" [("name", b.dataset)]
      (b.filters.map filterNode ++ b.attributes.map attributeNode)]

/-! ## Client facade and error model (src/lib.rs, src/definitions.rs) -/

/-- A transport result handed back by the HTTP collaborator: the numeric
status code and the body text. -/
structure HttpResponse : Type where
  status : Nat
  body : String
deriving Repr, DecidableEq

/-- reqwest StatusCode::is_success: the 2xx class. -/
def isSuccessStatus (s : Nat) : Bool :=
  200 ≤ s && s < 300

/-- The error values of src/definitions.rs: StatusError carries the
status code, ServerError carries nothing. -/
inductive MartError : Type where
  | statusError (code : Nat)
  | serverError
deriving Repr, DecidableEq

/-- MartClient::make_request: on a success status the body text, otherwise
Err(StatusError(status)).  (The ServerError value exists in the source but
is never constructed.) -/
def make_request (resp : HttpResponse) : Except MartError String :=
  if isSuccessStatus resp.status then .ok resp.body
  else .error (.statusError resp.status)

/-! ## Metadata decoders (src/definitions.rs and src/lib.rs) -/

/-- bool_from_int of src/definitions.rs: 0 is false, 1 is true, anything
else is a decode error naming the unexpected value. -/
def bool_from_int (n : Nat) : Except String Bool :=
  match n with
  | 0 => .ok false
  | 1 => .ok true
  | other => .error ("invalid value: integer " ++ toString other ++ ", expected zero or one")

/-- Accumulate a decimal number over a digit list. -/
def digitsToNat : List Char → Nat → Nat
  | [], acc => acc
  | c :: cs, acc => digitsToNat cs (acc * 10 + (c.toNat - '0'.toNat))

/-- Parse an unsigned decimal integer, as the strict integer fields
(usize, u8 before its range check) are parsed: digits only. -/
def parseNat (s : String) : Option Nat :=
  if !s.data.isEmpty && s.data.all Char.isDigit then some (digitsToNat s.data 0) else none

/-- Split a character list on commas. -/
def splitCommaChars : List Char → List Char → List String
  | [], acc => [⟨acc⟩]
  | ',' :: cs, acc => ⟨acc⟩ :: splitCommaChars cs []
  | c :: cs, acc => splitCommaChars (cs) (acc ++ [c])

/-- serde_with StringWithSeparator with CommaSeparator: an empty string is
the empty list, otherwise split on commas. -/
def commaSplit (s : String) : List String :=
  if s.data.isEmpty then [] else splitCommaChars s.data []

/-- How serde_xml_rs reads a boolean attribute value. -/
def parseXmlBool (s : String) : Option Bool :=
  if s == "true" || s == "1" then some true
  else if s == "false" || s == "0" then some false
  else none

/-- str::trim_matches: repeatedly remove characters matching the pattern
from both ends of the string. -/
def trimMatches (p : Char → Bool) (s : String) : String :=
  ⟨((s.data.dropWhile p).reverse.dropWhile p).reverse⟩

/-- The options shim of MartClient::filters, on the decoded options list:
nothing for an empty list; for a singleton, trim_matches with the pattern
matching both bracket characters, clearing the list when the result is
empty; for two or more elements, trim_matches of the opening bracket on
element 0 and of the closing bracket on the last element. -/
def shimOptions (options : List String) : List String :=
  match options with
  | [] => options
  | [o] =>
    let s := trimMatches (fun c => c == '[' || c == ']') o
    if !s.isEmpty then [s] else []
  | o1 :: o2 :: os =>
    let options := o1 :: o2 :: os
    let n := options.length - 1
    let options1 := options.set 0 (trimMatches (fun c => c == '[') (options.headD ""))
    options1.set n (trimMatches (fun c => c == ']') (options1.getD n ""))

/-- Apply a function to the last element of a list. -/
def updateLast (f : String → String) : List String → List String
  | [] => []
  | [x] => [f x]
  | x :: y :: xs => x :: updateLast f (y :: xs)

/-- Remove every copy of `c` from the front of the string. -/
def stripLeadingChars (c : Char) (s : String) : String :=
  ⟨s.data.dropWhile (· == c)⟩

/-- Remove every copy of `c` from the end of the string. -/
def stripTrailingChars (c : Char) (s : String) : String :=
  ⟨(s.data.reverse.dropWhile (· == c)).reverse⟩

/-- Remove a single copy of `c` from the front of the string, if present. -/
def stripOneLeading (c : Char) (s : String) : String :=
  match s.data with
  | x :: xs => if x == c then ⟨xs⟩ else s
  | [] => s

/-- Remove a single copy of `c` from the end of the string, if present. -/
def stripOneTrailing (c : Char) (s : String) : String :=
  match s.data.reverse with
  | x :: xs => if x == c then ⟨xs.reverse⟩ else s
  | [] => s

/-- The options shim exactly as the claim under test words it: for a
singleton, strip only leading opening brackets and trailing closing
brackets of that element (empty result clears the list); for two or more
elements, strip a single leading opening bracket from the first element
and a single trailing closing bracket from the last, everything else
untouched. -/
def shimOptionsClaimed (options : List String) : List String :=
  match options with
  | [] => []
  | [o] =>
    let s := stripTrailingChars ']' (stripLeadingChars '[' o)
    if s.isEmpty then [] else [s]
  | o :: rest => stripOneLeading '[' o :: updateLast (stripOneTrailing ']') rest

/-- The options shim as amended to match the code: for a singleton, strip
all bracket characters of either kind from both ends; for two or more
elements, strip all opening brackets from both ends of the first element
and all closing brackets from both ends of the last. -/
def shimOptionsAmended (options : List String) : List String :=
  match options with
  | [] => []
  | [o] =>
    let s := trimMatches (fun c => c == '[' || c == ']') o
    if s.isEmpty then [] else [s]
  | o :: rest =>
    trimMatches (fun c => c == '[') o :: updateLast (trimMatches (fun c => c == ']')) rest

/-- Dataset listing record (struct DatasetInfo), with u8/usize as Nat. -/
structure DatasetInfo : Type where
  kind : String
  dataset : String
  description : String
  visible : Bool
  version : String
  unknown_1 : Nat
  unknown_2 : Nat
  unknown_3 : String
  date : String
deriving Repr, DecidableEq

/-- Deserialize one tab-separated row into DatasetInfo: exactly nine
columns, the visible column a u8 that bool_from_int accepts, the two
unknown integer columns parsable; none on any failure (the row then falls
into the filter_map(Result::ok) drop). -/
def decodeDatasetRow (row : List String) : Option DatasetInfo :=
  match row with
  | [kind, dataset, description, visibleS, version, u1, u2, unknown_3, date] =>
    match parseNat visibleS with
    | none => none
    | some v8 =>
      if 256 ≤ v8 then none
      else
        match bool_from_int v8 with
        | .error _ => none
        | .ok visible =>
          match parseNat u1, parseNat u2 with
          | some n1, some n2 =>
            some ⟨kind, dataset, description, visible, version, n1, n2, unknown_3, date⟩
          | _, _ => none
  | _ => none

/-- Attribute listing record (struct AttributeInfo). -/
structure AttributeInfo : Type where
  name : String
  description : String
  full_description : String
  page : String
  formats : List String
  unknown_1 : String
  unknown_2 : String
deriving Repr, DecidableEq

/-- Deserialize one tab-separated row into AttributeInfo: exactly seven
columns, the formats column comma-split. -/
def decodeAttributeRow (row : List String) : Option AttributeInfo :=
  match row with
  | [name, description, full_description, page, formatsS, u1, u2] =>
    some ⟨name, description, full_description, page, commaSplit formatsS, u1, u2⟩
  | _ => none

/-- The parser closure of MartClient::datasets: deserialize every row,
keep the successes (filter_map(Result::ok)); the closure itself always
returns Ok. -/
def datasets_parse (rows : List (List String)) : Except String (List DatasetInfo) :=
  .ok (rows.filterMap decodeDatasetRow)

/-- The parser closure of MartClient::attributes, likewise. -/
def attributes_parse (rows : List (List String)) : Except String (List AttributeInfo) :=
  .ok (rows.filterMap decodeAttributeRow)

/-- Filter kind tag (enum FilterType), decoded from a snake_case tag with
serde(other): an unrecognized tag is Unknown, never a failure. -/
inductive FilterType : Type where
  | Boolean
  | BooleanList
  | IdList
  | List
  | Text
  | Unknown
deriving Repr, DecidableEq

/-- Decode the kind column of a filter row. -/
def decodeFilterType (s : String) : FilterType :=
  if s == "boolean" then .Boolean
  else if s == "boolean_list" then .BooleanList
  else if s == "id_list" then .IdList
  else if s == "list" then .List
  else if s == "text" then .Text
  else .Unknown

/-- Filter listing record (struct FilterInfo). -/
structure FilterInfo : Type where
  name : String
  description : String
  options : List String
  full_description : String
  filters : String
  kind : FilterType
  operation : String
  unknown_1 : String
  unknown_2 : String
deriving Repr, DecidableEq

/-- Deserialize one tab-separated row into FilterInfo: exactly nine
columns, the options column comma-split, the kind column never failing. -/
def decodeFilterRow (row : List String) : Option FilterInfo :=
  match row with
  | [name, description, optionsS, full_description, filters, kindS, operation, u1, u2] =>
    some ⟨name, description, commaSplit optionsS, full_description, filters,
      decodeFilterType kindS, operation, u1, u2⟩
  | _ => none

/-- The per-record options fixup of MartClient::filters: the shim applied
to the decoded options list, the other fields unchanged. -/
def shimFilterInfo (info : FilterInfo) : FilterInfo :=
  { info with options := shimOptions info.options }

/-- The parser closure of MartClient::filters: deserialize every row,
keep the successes (filter_map(Result::ok)), then map the options shim
over each surviving record; the closure itself always returns Ok. -/
def filters_parse (rows : List (List String)) : Except String (List FilterInfo) :=
  .ok ((rows.filterMap decodeFilterRow).map shimFilterInfo)

/-! ## Mart registry decoding (MartClient::marts) -/

/-- Mart registry record (struct MartInfo); usize port as Nat. -/
structure MartInfo : Type where
  host : String
  port : Nat
  database : String
  include_datasets : List String
  visible : Bool
  mart_user : String
  dfault : Bool
  server_virtual_schema : String
  display_name : String
  path : String
  name : String
deriving Repr, DecidableEq

/-- Decode one MartURLLocation element from its attributes.  Fields with
plain Deserialize are required and strict (none on failure); port must
parse as an integer; the three default_on_error_deserializer fields fall
back to their defaults on absence or malformation; includeDatasets is
comma-split with a default of empty. -/
def decodeMartInfo (attrs : List (String × String)) : Option MartInfo := do
  let host ← attrs.lookup "host"
  let portS ← attrs.lookup "port"
  let port ← parseNat portS
  let database ← attrs.lookup "database"
  let include_datasets :=
    match attrs.lookup "includeDatasets" with
    | none => []
    | some s => commaSplit s
  let visible :=
    match attrs.lookup "visible" with
    | none => false
    | some s => (parseXmlBool s).getD false
  let mart_user := (attrs.lookup "martUser").getD ""
  let dfault :=
    match attrs.lookup "default" with
    | none => false
    | some s => (parseXmlBool s).getD false
  let server_virtual_schema ← attrs.lookup "serverVirtualSchema"
  let display_name ← attrs.lookup "displayName"
  let path ← attrs.lookup "path"
  let name ← attrs.lookup "name"
  pure ⟨host, port, database, include_datasets, visible, mart_user, dfault,
    server_virtual_schema, display_name, path, name⟩

/-- The top-level decode target of the registry endpoint. -/
structure MartRegistry : Type where
  marts : List MartInfo
deriving Repr, DecidableEq

/-- Decode a MartRegistry from the root element: every MartURLLocation
child element must decode (serde is all-or-nothing for this sequence). -/
def decodeMartRegistry (root : XMLNode) : Option MartRegistry := do
  let infos ←
    ((childNodes root).filter fun c =>
        match c with
        | .element nm _ _ => nm == "MartURLLocation"
        | .text _ => false).mapM
      fun c =>
        match c with
        | .element _ attrs _ => decodeMartInfo attrs
        | .text _ => none
  pure ⟨infos⟩

/-- serde_xml_rs::from_reader for MartRegistry: parse the document, then
decode the root. -/
def parseMartRegistry (xml : String) : Option MartRegistry :=
  (Element.parse xml).bind decodeMartRegistry

/-- The observable outcome of a client call, with a Rust panic kept
distinct from an Err return. -/
inductive CallOutcome (α : Type) : Type where
  | ok (value : α)
  | err (e : MartError)
  | panicked
deriving Repr

/-- MartClient::marts: request, then parse the registry;
from_reader(...).unwrap_or_else panics on a parse failure instead of
returning an error result. -/
def marts_call (resp : HttpResponse) : CallOutcome (List MartInfo) :=
  match make_request resp with
  | .error e => .err e
  | .ok xml =>
    match parseMartRegistry xml with
    | some registry => .ok registry.marts
    | none => .panicked

/-- A registry document in which the required strict field port is not an
integer, so that MartInfo cannot be decoded. -/
def badRegistryXml : String :=
  "<MartRegistry><MartURLLocation database='ensembl_mart_99' default='1' displayName='Ensembl Genes 99' host='www.ensembl.org' includeDatasets='' martUser='' name='ENSEMBL_MART_ENSEMBL' path='/biomart/martservice' port='eighty' serverVirtualSchema='default' visible='1' /></MartRegistry>"

/-- The registry document of the parse_marts test of the source, which
decodes successfully. -/
def goodRegistryXml : String :=
  "<MartRegistry><MartURLLocation database='ensembl_mart_99' default='1' displayName='Ensembl Genes 99' host='www.ensembl.org' includeDatasets='' martUser='' name='ENSEMBL_MART_ENSEMBL' path='/biomart/martservice' port='80' serverVirtualSchema='default' visible='1' /></MartRegistry>"

/-! ## Helper lemmas -/

/-- The template document of impl Default for Query parses, to exactly
the expected root element. -/
lemma mkDefault_eq : Query.mkDefault = some ⟨defaultQueryRoot⟩ := by rfl

/-- Folding child pushes over a root whose only child is the Dataset
element appends the pushed nodes to the Dataset children, in order. -/
lemma foldlM_push {α : Type} (g : α → XMLNode) (xs : List α) :
    ∀ (qattrs dattrs : List (String × String)) (ds : List XMLNode),
      List.foldlM (fun r x => updateDataset r (pushChild (g x)))
          (XMLNode.element "Query" qattrs [XMLNode.element "Dataset" dattrs ds]) xs
        = some (XMLNode.element "Query" qattrs
            [XMLNode.element "Dataset" dattrs (ds ++ xs.map g)]) := by
  induction xs with
  | nil => intro qattrs dattrs ds; simp [List.foldlM]
  | cons x xs ih =>
    intro qattrs dattrs ds
    have hstep :
        updateDataset
            (XMLNode.element "Query" qattrs [XMLNode.element "Dataset" dattrs ds])
            (pushChild (g x))
          = some (XMLNode.element "Query" qattrs
              [XMLNode.element "Dataset" dattrs (ds ++ [g x])]) := rfl
    calc
      List.foldlM (fun r x => updateDataset r (pushChild (g x)))
          (XMLNode.element "Query" qattrs [XMLNode.element "Dataset" dattrs ds]) (x :: xs)
        = List.foldlM (fun r x => updateDataset r (pushChild (g x)))
            (XMLNode.element "Query" qattrs
              [XMLNode.element "Dataset" dattrs (ds ++ [g x])]) xs := by
              simp [List.foldlM, hstep]
      _ = some (XMLNode.element "Query" qattrs
            [XMLNode.element "Dataset" dattrs ((ds ++ [g x]) ++ xs.map g)]) := ih ..
      _ = some (XMLNode.element "Query" qattrs
            [XMLNode.element "Dataset" dattrs (ds ++ (x :: xs).map g)]) := by
              simp

/-- Characterization of QueryBuilder::build: it always succeeds and
produces the default document with the Dataset name set and the filter
elements followed by the attribute elements as Dataset children. -/
lemma build_eq (b : QueryBuilder) : b.build = some ⟨builtRoot b⟩ := by
  have hset :
      updateDataset defaultQueryRoot (setNameAttr b.dataset)
        = some (XMLNode.element "Query" defaultQueryAttrs
            [XMLNode.element "Dataset" [("name", b.dataset)] []]) := rfl
  calc
    b.build
      = (Query.mkDefault).bind fun q =>
          (updateDataset q.inner (setNameAttr b.dataset)).bind fun root0 =>
            (b.filters.foldlM
                (fun r entry => updateDataset r (pushChild (filterNode entry))) root0).bind
              fun root1 =>
                (b.attributes.foldlM
                    (fun r a => updateDataset r (pushChild (attributeNode a))) root1).map
                  fun root2 => Query.mk root2 := rfl
    _ = some ⟨builtRoot b⟩ := by
      rw [mkDefault_eq]
      simp only [Option.some_bind]
      rw [hset]
      simp only [Option.some_bind]
      rw [foldlM_push filterNode b.filters defaultQueryAttrs [("name", b.dataset)] []]
      simp only [Option.some_bind]
      rw [foldlM_push attributeNode b.attributes defaultQueryAttrs [("name", b.dataset)]
        (([] : List XMLNode) ++ b.filters.map filterNode)]
      simp [builtRoot]

/-- The Dataset children of the built document are exactly the filter
nodes followed by the attribute nodes. -/
lemma builtDatasetChildren_eq (b : QueryBuilder) :
    builtDatasetChildren b
      = some (b.filters.map filterNode ++ b.attributes.map attributeNode) := by
  rw [builtDatasetChildren, build_eq]
  rfl

/-- QueryBuilder::attributes appends all given names. -/
lemma attributesMany_spec (as : List String) (b : QueryBuilder) :
    b.attributesMany as = { b with attributes := b.attributes ++ as } := by
  induction as generalizing b with
  | nil => simp [QueryBuilder.attributesMany]
  | cons a as ih =>
    rw [show b.attributesMany (a :: as) = (b.addAttribute a).attributesMany as from rfl, ih]
    simp [QueryBuilder.addAttribute]

/-- A call sequence leaves the builder with exactly the filter entries
and attribute names it records, appended in call order, each into its own
list. -/
lemma applyCalls_spec (cs : List BuilderCall) (b : QueryBuilder) :
    applyCalls b cs
      = { b with
          filters := b.filters ++ collectFilterEntries cs,
          attributes := b.attributes ++ collectAttrNames cs } := by
  induction cs generalizing b with
  | nil => simp [applyCalls, collectFilterEntries, collectAttrNames]
  | cons c cs ih =>
    have hstep : applyCalls b (c :: cs) = applyCalls (applyCall b c) cs := rfl
    cases c with
    | filterCall n vs =>
      rw [hstep, ih]
      simp [applyCall, QueryBuilder.filter, collectFilterEntries, collectAttrNames,
        List.append_assoc]
    | filterBoolCall n i =>
      rw [hstep, ih]
      simp [applyCall, QueryBuilder.filter_bool, collectFilterEntries, collectAttrNames,
        List.append_assoc]
    | attributeCall a =>
      rw [hstep, ih]
      simp [applyCall, QueryBuilder.addAttribute, collectFilterEntries, collectAttrNames,
        List.append_assoc]
    | attributesCall as =>
      rw [hstep, ih]
      simp [applyCall, attributesMany_spec, collectFilterEntries, collectAttrNames,
        List.append_assoc]

/-- Setting the last position of a nonempty list to a function of the
element there is updateLast. -/
lemma set_last_eq_updateLast (g : String → String) :
    ∀ (x : String) (t : List String),
      (x :: t).set t.length (g ((x :: t).getD t.length "")) = updateLast g (x :: t) := by
  intro x t
  induction t generalizing x with
  | nil => rfl
  | cons y t ih =>
    calc
      (x :: y :: t).set (y :: t).length (g ((x :: y :: t).getD (y :: t).length ""))
        = x :: ((y :: t).set t.length (g ((y :: t).getD t.length ""))) := by
          simp [List.getD_cons_succ, List.set_cons_succ]
      _ = x :: updateLast g (y :: t) := by rw [ih y]
      _ = updateLast g (x :: y :: t) := rfl

/-- The source shim equals its amended description. -/
lemma shimOptions_eq_amended (options : List String) :
    shimOptions options = shimOptionsAmended options := by
  match options with
  | [] => rfl
  | [o] =>
    show (if !(trimMatches (fun c => c == '[' || c == ']') o).isEmpty
          then [trimMatches (fun c => c == '[' || c == ']') o] else [])
        = _
    cases h : (trimMatches (fun c => c == '[' || c == ']') o).isEmpty <;>
      simp [shimOptionsAmended, h]
  | o1 :: o2 :: os =>
    show (trimMatches (fun c => c == '[') o1 :: o2 :: os).set (os.length + 1)
          (trimMatches (fun c => c == ']')
            ((trimMatches (fun c => c == '[') o1 :: o2 :: os).getD (os.length + 1) ""))
        = _
    calc
      (trimMatches (fun c => c == '[') o1 :: o2 :: os).set (os.length + 1)
          (trimMatches (fun c => c == ']')
            ((trimMatches (fun c => c == '[') o1 :: o2 :: os).getD (os.length + 1) ""))
        = trimMatches (fun c => c == '[') o1 ::
            ((o2 :: os).set os.length
              (trimMatches (fun c => c == ']') ((o2 :: os).getD os.length ""))) := by
          simp [List.getD_cons_succ, List.set_cons_succ]
      _ = trimMatches (fun c => c == '[') o1 :: updateLast (trimMatches (fun c => c == ']')) (o2 :: os) := by
          rw [set_last_eq_updateLast]
      _ = shimOptionsAmended (o1 :: o2 :: os) := rfl

/-- filterMap keeps one output per input on which the function succeeds. -/
lemma length_filterMap_eq_length_filter {α β : Type} (f : α → Option β) (l : List α) :
    (l.filterMap f).length = (l.filter fun a => (f a).isSome).length := by
  induction l with
  | nil => rfl
  | cons a l ih => cases h : f a <;> simp [List.filterMap_cons, List.filter_cons, h, ih]

/-- filterMap keeps everything when the function succeeds everywhere. -/
lemma length_filterMap_of_all_some {α β : Type} (f : α → Option β) :
    ∀ l : List α, (∀ r ∈ l, (f r).isSome) → (l.filterMap f).length = l.length := by
  intro l h
  induction l with
  | nil => rfl
  | cons a l ih =>
    have ha : (f a).isSome := h a (List.mem_cons_self a l)
    obtain ⟨b, hb⟩ := Option.isSome_iff_exists.mp ha
    simp [List.filterMap_cons, hb, ih fun r hr => h r (List.mem_cons_of_mem a hr)]

/-! ## Claim theorems -/

/-- C1: For every builder state, calling build() twice produces two Query
documents whose serialized XML texts (via to_string) are byte-identical:
build reads only the builder state and starts from a fresh default
document, and the tree serializer is a deterministic function of the
tree. -/
theorem C1_build_twice_identical_text (b : QueryBuilder) (q1 q2 : Query)
    (h1 : b.build = some q1) (h2 : b.build = some q2) :
    q1.toText = q2.toText := by
  rw [h1] at h2
  injection h2 with h
  rw [h]

/-- C1 witness: a concrete builder, its two builds and their equal texts. -/
theorem C1_witness :
    (QueryBuilder.new.filter "f" ["a", "b"]).build
        = some ⟨builtRoot (QueryBuilder.new.filter "f" ["a", "b"])⟩
      ∧ Query.toText ⟨builtRoot (QueryBuilder.new.filter "f" ["a", "b"])⟩
          = Query.toText ⟨builtRoot (QueryBuilder.new.filter "f" ["a", "b"])⟩ :=
  ⟨rfl,
    C1_build_twice_identical_text (QueryBuilder.new.filter "f" ["a", "b"])
      ⟨builtRoot (QueryBuilder.new.filter "f" ["a", "b"])⟩
      ⟨builtRoot (QueryBuilder.new.filter "f" ["a", "b"])⟩ rfl rfl⟩

/-- C2 counterexample: for the call sequence [attribute "a", filter_bool
"f" true] the built Dataset children are [Filter, Attribute], not the
global call order [Attribute, Filter] the claim requires. -/
theorem C2_counterexample :
    builtDatasetChildren
        (applyCalls QueryBuilder.new
          [BuilderCall.attributeCall "a", BuilderCall.filterBoolCall "f" true])
      ≠ some (claimOrderChildren
          [BuilderCall.attributeCall "a", BuilderCall.filterBoolCall "f" true]) := by
  intro h
  exact absurd (congrArg (Option.map serializeNodeList) h) (by decide)

/-- C2 amended: for every call sequence mixing filter, filter_bool,
attribute and attributes, the built Dataset children are all Filter
elements in filter-call order followed by all Attribute elements in
attribute-call order (not the interleaved global call order). -/
theorem C2_amended_children_order (cs : List BuilderCall) :
    builtDatasetChildren (applyCalls QueryBuilder.new cs)
      = some ((collectFilterEntries cs).map filterNode
          ++ (collectAttrNames cs).map attributeNode) := by
  rw [builtDatasetChildren_eq, applyCalls_spec]
  simp [QueryBuilder.new, QueryBuilder.mkDefault]

/-- C3 counterexample: the server-class status 500 is reported as
StatusError(500), not as the distinct ServerError signal (which the code
never constructs). -/
theorem C3_counterexample :
    make_request ⟨500, ""⟩ = Except.error (MartError.statusError 500)
      ∧ Except.error (MartError.statusError 500)
          ≠ (Except.error MartError.serverError : Except MartError String) := by
  refine ⟨rfl, ?_⟩
  intro h
  injection h with h2
  exact MartError.noConfusion h2

/-- C3 amended: every non-success status, server-class included, is
reported as the status error carrying the numeric code; the server error
signal is never produced. -/
theorem C3_amended_status_classification (resp : HttpResponse)
    (h : isSuccessStatus resp.status = false) :
    make_request resp = Except.error (MartError.statusError resp.status)
      ∧ make_request resp ≠ Except.error MartError.serverError := by
  rw [make_request, h]
  refine ⟨rfl, ?_⟩
  intro hc
  injection hc with h2
  exact MartError.noConfusion h2

/-- C3 witness: the amended classification at the concrete status 404. -/
theorem C3_witness :
    make_request ⟨404, "nf"⟩ = Except.error (MartError.statusError 404)
      ∧ make_request ⟨404, "nf"⟩ ≠ Except.error MartError.serverError :=
  C3_amended_status_classification ⟨404, "nf"⟩ (by decide)

/-- C4 counterexample: on the single decoded element "]a[" the code strips
the brackets (trim_matches removes both bracket kinds from both ends),
while the claim (strip only leading opening and trailing closing
brackets) leaves the element unchanged. -/
theorem C4_counterexample :
    shimOptions ["]a["] ≠ shimOptionsClaimed ["]a["]
      ∧ shimOptions ["]a["] = ["a"]
      ∧ shimOptionsClaimed ["]a["] = ["]a["] := by
  refine ⟨by decide, rfl, rfl⟩

/-- C4 amended: the shim strips all bracket characters of either kind
from both ends of a lone element (clearing the list when the result is
empty), and for two or more elements strips all opening brackets from
both ends of the first and all closing brackets from both ends of the
last; the spec examples still hold. -/
theorem C4_amended_bracket_trim (options : List String) :
    shimOptions options = shimOptionsAmended options
      ∧ shimOptions (commaSplit "") = []
      ∧ shimOptions ["[foo]"] = ["foo"]
      ∧ shimOptions ["[a", "b]"] = ["a", "b"] :=
  ⟨shimOptions_eq_amended options, rfl, rfl, rfl⟩

/-- C5: on a registry document whose strict port field is unparsable, the
marts() call panics (unwrap_or_else with panic!) instead of returning an
error result, while the same document with a parsable port decodes fine. -/
theorem C5_marts_panics_on_malformed_registry :
    marts_call ⟨200, badRegistryXml⟩ = CallOutcome.panicked
      ∧ marts_call ⟨200, goodRegistryXml⟩
          = CallOutcome.ok
              [⟨"www.ensembl.org", 80, "ensembl_mart_99", [], true, "", true, "default",
                "Ensembl Genes 99", "/biomart/martservice", "ENSEMBL_MART_ENSEMBL"⟩] :=
  ⟨rfl, rfl⟩

/-- C6: a Match filter serializes as one Filter element whose value
attribute is the comma-joined values with no excluded attribute;
filter_bool false gives excluded="1", filter_bool true gives
excluded="0", with no value attribute. -/
theorem C6_filter_serialization (n : String) (vs : List String) :
    (builtDatasetChildren (QueryBuilder.new.filter n vs)
        = some [XMLNode.element "Filter"
            [("name", n), ("value", String.intercalate "," vs)] []]
      ∧ attrLookup (filterNode (n, FilterOperation.Match vs)) "excluded" = none)
    ∧ (builtDatasetChildren (QueryBuilder.new.filter_bool n false)
        = some [XMLNode.element "Filter" [("name", n), ("excluded", "1")] []]
      ∧ builtDatasetChildren (QueryBuilder.new.filter_bool n true)
        = some [XMLNode.element "Filter" [("name", n), ("excluded", "0")] []]
      ∧ attrLookup (filterNode (n, FilterOperation.Exclude)) "value" = none
      ∧ attrLookup (filterNode (n, FilterOperation.Include)) "value" = none) := by
  refine ⟨⟨?_, rfl⟩, ?_, ?_, rfl, rfl⟩
  · rw [builtDatasetChildren_eq]; rfl
  · rw [builtDatasetChildren_eq]; rfl
  · rw [builtDatasetChildren_eq]; rfl

/-- C7: bool_from_int maps 0 to false and 1 to true and rejects every
other value with a decode error. -/
theorem C7_bool_from_int :
    bool_from_int 0 = Except.ok false
      ∧ bool_from_int 1 = Except.ok true
      ∧ ∀ n : Nat, n ≠ 0 → n ≠ 1 → ∃ msg, bool_from_int n = Except.error msg := by
  refine ⟨rfl, rfl, ?_⟩
  intro n h0 h1
  cases n with
  | zero => exact absurd rfl h0
  | succ m =>
    cases m with
    | zero => exact absurd rfl h1
    | succ k => exact ⟨_, rfl⟩

/-- C7 witness: the rejection at the concrete value 2. -/
theorem C7_witness :
    (2 : Nat) ≠ 0 ∧ (2 : Nat) ≠ 1
      ∧ ∃ msg, bool_from_int 2 = Except.error msg :=
  ⟨by decide, by decide, C7_bool_from_int.2.2 2 (by decide) (by decide)⟩

/-- C8: listing-row decoding keeps every valid row in order and drops
every malformed row, the result length is the number of valid rows, and
the call itself still succeeds — for the dataset, the filter and the
attribute listings alike (the filters call additionally maps the options
shim over each surviving record, which changes no row count). -/
theorem C8_row_tolerance :
    (∀ rows : List (List String),
        datasets_parse rows = Except.ok (rows.filterMap decodeDatasetRow)
          ∧ (rows.filterMap decodeDatasetRow).length
              = (rows.filter fun r => (decodeDatasetRow r).isSome).length)
      ∧ (∀ (pre post : List (List String)) (bad : List String),
          decodeDatasetRow bad = none →
            datasets_parse (pre ++ bad :: post) = datasets_parse (pre ++ post))
      ∧ (∀ rows : List (List String), (∀ r ∈ rows, (decodeDatasetRow r).isSome) →
          (rows.filterMap decodeDatasetRow).length = rows.length)
      ∧ (∀ rows : List (List String),
          filters_parse rows
              = Except.ok ((rows.filterMap decodeFilterRow).map shimFilterInfo)
            ∧ ((rows.filterMap decodeFilterRow).map shimFilterInfo).length
                = (rows.filter fun r => (decodeFilterRow r).isSome).length)
      ∧ (∀ (pre post : List (List String)) (bad : List String),
          decodeFilterRow bad = none →
            filters_parse (pre ++ bad :: post) = filters_parse (pre ++ post))
      ∧ (∀ rows : List (List String), (∀ r ∈ rows, (decodeFilterRow r).isSome) →
          ((rows.filterMap decodeFilterRow).map shimFilterInfo).length = rows.length)
      ∧ (∀ rows : List (List String),
          attributes_parse rows = Except.ok (rows.filterMap decodeAttributeRow)
            ∧ (rows.filterMap decodeAttributeRow).length
                = (rows.filter fun r => (decodeAttributeRow r).isSome).length)
      ∧ (∀ (pre post : List (List String)) (bad : List String),
          decodeAttributeRow bad = none →
            attributes_parse (pre ++ bad :: post) = attributes_parse (pre ++ post))
      ∧ (∀ rows : List (List String), (∀ r ∈ rows, (decodeAttributeRow r).isSome) →
          (rows.filterMap decodeAttributeRow).length = rows.length) := by
  refine ⟨?_, ?_, ?_, ?_, ?_, ?_, ?_, ?_, ?_⟩
  · intro rows
    exact ⟨rfl, length_filterMap_eq_length_filter _ rows⟩
  · intro pre post bad h
    simp [datasets_parse, List.filterMap_append, List.filterMap_cons, h]
  · intro rows h
    exact length_filterMap_of_all_some _ rows h
  · intro rows
    refine ⟨rfl, ?_⟩
    rw [List.length_map]
    exact length_filterMap_eq_length_filter _ rows
  · intro pre post bad h
    simp [filters_parse, List.filterMap_append, List.filterMap_cons, h]
  · intro rows h
    rw [List.length_map]
    exact length_filterMap_of_all_some _ rows h
  · intro rows
    exact ⟨rfl, length_filterMap_eq_length_filter _ rows⟩
  · intro pre post bad h
    simp [attributes_parse, List.filterMap_append, List.filterMap_cons, h]
  · intro rows h
    exact length_filterMap_of_all_some _ rows h

/-- C8 witness: for each of the three listings, a malformed one-column
row next to a valid row is dropped, the call result equals the one
without the malformed row, and the all-valid singleton keeps its one
row. -/
theorem C8_witness :
    decodeDatasetRow ["oops"] = none
      ∧ datasets_parse
          ([["TableSet", "hsapiens_gene_ensembl", "Human genes", "1", "GRCh38", "200",
             "50", "default", "2020-01-01"]] ++ ["oops"] :: [])
        = datasets_parse
            ([["TableSet", "hsapiens_gene_ensembl", "Human genes", "1", "GRCh38", "200",
               "50", "default", "2020-01-01"]] ++ [])
      ∧ ((([["TableSet", "hsapiens_gene_ensembl", "Human genes", "1", "GRCh38", "200",
             "50", "default", "2020-01-01"]]) : List (List String)).filterMap
            decodeDatasetRow).length = 1
      ∧ decodeFilterRow ["oops"] = none
      ∧ filters_parse
          ([["chromosome_name", "Chromosome name", "[1,2]", "Chromosome", "filters",
             "list", "=", "", ""]] ++ ["oops"] :: [])
        = filters_parse
            ([["chromosome_name", "Chromosome name", "[1,2]", "Chromosome", "filters",
               "list", "=", "", ""]] ++ [])
      ∧ (((([["chromosome_name", "Chromosome name", "[1,2]", "Chromosome", "filters",
              "list", "=", "", ""]]) : List (List String)).filterMap
            decodeFilterRow).map shimFilterInfo).length = 1
      ∧ decodeAttributeRow ["oops"] = none
      ∧ attributes_parse
          ([["ensembl_gene_id", "Gene stable ID", "Gene stable ID", "feature_page",
             "html,txt,csv", "", ""]] ++ ["oops"] :: [])
        = attributes_parse
            ([["ensembl_gene_id", "Gene stable ID", "Gene stable ID", "feature_page",
               "html,txt,csv", "", ""]] ++ [])
      ∧ ((([["ensembl_gene_id", "Gene stable ID", "Gene stable ID", "feature_page",
             "html,txt,csv", "", ""]]) : List (List String)).filterMap
            decodeAttributeRow).length = 1 :=
  ⟨rfl,
    C8_row_tolerance.2.1
      [["TableSet", "hsapiens_gene_ensembl", "Human genes", "1", "GRCh38", "200", "50",
        "default", "2020-01-01"]] [] ["oops"] rfl,
    C8_row_tolerance.2.2.1
      [["TableSet", "hsapiens_gene_ensembl", "Human genes", "1", "GRCh38", "200", "50",
        "default", "2020-01-01"]] (by decide),
    rfl,
    C8_row_tolerance.2.2.2.2.1
      [["chromosome_name", "Chromosome name", "[1,2]", "Chromosome", "filters", "list",
        "=", "", ""]] [] ["oops"] rfl,
    C8_row_tolerance.2.2.2.2.2.1
      [["chromosome_name", "Chromosome name", "[1,2]", "Chromosome", "filters", "list",
        "=", "", ""]] (by decide),
    rfl,
    C8_row_tolerance.2.2.2.2.2.2.2.1
      [["ensembl_gene_id", "Gene stable ID", "Gene stable ID", "feature_page",
        "html,txt,csv", "", ""]] [] ["oops"] rfl,
    C8_row_tolerance.2.2.2.2.2.2.2.2
      [["ensembl_gene_id", "Gene stable ID", "Gene stable ID", "feature_page",
        "html,txt,csv", "", ""]] (by decide)⟩

/-- C9: every built document carries the protocol defaults
virtualSchemaName="default", uniqueRows="1", count="0",
datasetConfigVersion="0.6", header="1", formatter="TSV" and the constant
requestid, the boolean-valued attributes as the literal characters 1/0. -/
theorem C9_protocol_defaults (b : QueryBuilder) (q : Query)
    (h : b.build = some q) :
    attrLookup q.inner "virtualSchemaName" = some "default"
      ∧ attrLookup q.inner "uniqueRows" = some "1"
      ∧ attrLookup q.inner "count" = some "0"
      ∧ attrLookup q.inner "datasetConfigVersion" = some "0.6"
      ∧ attrLookup q.inner "header" = some "1"
      ∧ attrLookup q.inner "formatter" = some "TSV"
      ∧ attrLookup q.inner "requestid" = some REQUEST_ID := by
  rw [build_eq] at h
  injection h with h
  subst h
  exact ⟨rfl, rfl, rfl, rfl, rfl, rfl, rfl⟩

/-- C9 witness: the defaults on the concrete build of the default
builder. -/
theorem C9_witness :
    QueryBuilder.new.build = some ⟨builtRoot QueryBuilder.new⟩
      ∧ attrLookup (builtRoot QueryBuilder.new) "virtualSchemaName" = some "default"
      ∧ attrLookup (builtRoot QueryBuilder.new) "uniqueRows" = some "1"
      ∧ attrLookup (builtRoot QueryBuilder.new) "count" = some "0"
      ∧ attrLookup (builtRoot QueryBuilder.new) "datasetConfigVersion" = some "0.6"
      ∧ attrLookup (builtRoot QueryBuilder.new) "header" = some "1"
      ∧ attrLookup (builtRoot QueryBuilder.new) "formatter" = some "TSV"
      ∧ attrLookup (builtRoot QueryBuilder.new) "requestid" = some REQUEST_ID :=
  ⟨rfl, C9_protocol_defaults QueryBuilder.new ⟨builtRoot QueryBuilder.new⟩ rfl⟩

/-- C10: the default document template always parses and contains the
Dataset child that build() looks up, so build() succeeds for every
builder state — none of the unwrap/expect failure branches is
reachable. -/
theorem C10_build_never_fails :
    (∃ root, Element.parse defaultQueryXml = some root
        ∧ (getChild root "Dataset").isSome = true)
      ∧ ∀ b : QueryBuilder, (b.build).isSome = true := by
  refine ⟨⟨defaultQueryRoot, rfl, rfl⟩, fun b => ?_⟩
  rw [build_eq]
  rfl
